import Mathlib

/-!
Shallow embedding of `src/tasks/bmstu_optional/task_optional/bmstu_optional.h`
(namespace `bmstu`), a hand-rolled `optional<T>` built on a raw aligned byte
buffer (`data_`) plus an engaged flag (`is_initialized_`).

Modelling choices:

* The raw buffer is modelled by `Mem T`: `live` is the T object currently
  constructed in the buffer (`none` = no live object, bytes uninitialized).
  To make object-lifetime claims statable, `Mem` additionally counts the
  placement-`new` constructions (`ctorCount`), the explicit destructor calls
  (`dtorCount`) and the T-assignments into the live object (`assignCount`)
  that have been performed in this storage.
* The three lifetime primitives the C++ code uses on the buffer are partial:
  `placement_new` is undefined behaviour (result `none`) if an object is
  already live (double construction), `destroy_at` is undefined behaviour on
  dead storage, and `deref_mem` (`*reinterpret_cast<T*>(data_)`) is undefined
  behaviour when no object is live.  Every `optional` operation therefore
  returns in the `Option` monad: a `some` result means the operation performed
  no lifetime violation.
* `T` is modelled as a plain value type (as in the spec's "for all T and all
  values v" properties): copy-construction, move-construction and assignment
  of a `T` all transfer the value, and moving from a `T` does not alter the
  source value.  Hence the copy and move overloads of the C++ code that
  differ only in `std::move` on the argument collapse to one Lean function
  each, noted at each definition.
* `this != &other` identity tests are modelled by an explicit `is_self : Bool`
  argument; `is_self = true` corresponds to calling the operator with the very
  same object on both sides.
-/

namespace bmstu

/-- Storage buffer model: the live T object (if any) plus lifetime-event
counters for the storage. -/
structure Mem (T : Type) where
  live : Option T
  ctorCount : Nat
  dtorCount : Nat
  assignCount : Nat
  deriving Repr, DecidableEq

/-- Freshly obtained storage: no live object, no lifetime events yet. -/
def Mem.fresh {T : Type} : Mem T :=
  { live := none, ctorCount := 0, dtorCount := 0, assignCount := 0 }

/-- Placement `new (data_) T(v)`: constructs a T in the buffer.  Constructing
on top of a live object (double construction without an intervening
destruction) is undefined behaviour, modelled as `none`. -/
def placement_new {T : Type} (m : Mem T) (v : T) : Option (Mem T) :=
  match m.live with
  | none => some { m with live := some v, ctorCount := m.ctorCount + 1 }
  | some _ => none

/-- Explicit destructor call `reinterpret_cast<T*>(data_)->~T()`.  Destroying
when no object is live is undefined behaviour, modelled as `none`. -/
def destroy_at {T : Type} (m : Mem T) : Option (Mem T) :=
  match m.live with
  | some _ => some { m with live := none, dtorCount := m.dtorCount + 1 }
  | none => none

/-- Reading the buffer as a T (`*reinterpret_cast<T*>(data_)`).  Undefined
behaviour when no object is live, modelled as `none`. -/
def deref_mem {T : Type} (m : Mem T) : Option T :=
  m.live

/-- Assignment into the live object (`**this = v`): invokes T's assignment
operator on the object in the buffer.  Undefined behaviour when no object is
live. -/
def assign_into {T : Type} (m : Mem T) (v : T) : Option (Mem T) :=
  match m.live with
  | some _ => some { m with live := some v, assignCount := m.assignCount + 1 }
  | none => none

/-- Error type of the checked accessor: `class bad_optional_access`, whose
`what()` is the single message "Bad optional access". -/
inductive bad_optional_access : Type where
  | mk : bad_optional_access
  deriving Repr, DecidableEq

/-- `bad_optional_access::what()`. -/
def bad_optional_access.what : bad_optional_access → String :=
  fun _ => "Bad optional access"

/-- `template <typename T> class optional`: the raw storage `data_` and the
engaged flag `is_initialized_`. -/
structure optional (T : Type) where
  data_ : Mem T
  is_initialized_ : Bool
  deriving Repr, DecidableEq

namespace optional

variable {T : Type}

/-- Default constructor `optional() noexcept`: empty, fresh storage. -/
def mk_empty : optional T :=
  { data_ := Mem.fresh, is_initialized_ := false }

/-- Constructors `optional(const T& value)` and `optional(T&& value)`:
both placement-new a T built from `value` into fresh storage and set the
flag (they coincide for a value-type T). -/
def of_value (v : T) : Option (optional T) :=
  (placement_new Mem.fresh v).map fun m =>
    { data_ := m, is_initialized_ := true }

/-- Copy constructor `optional(const optional& other)`: the flag is copied
from `other`; if `other` is engaged, `new (data_) T(*other)` into this
object's own fresh storage.  `other` is taken by const reference and is not
modified. -/
def copy_ctor (other : optional T) : Option (optional T) :=
  if other.is_initialized_ then do
    let v ← deref_mem other.data_
    let m ← placement_new Mem.fresh v
    pure { data_ := m, is_initialized_ := other.is_initialized_ }
  else
    pure { data_ := Mem.fresh, is_initialized_ := other.is_initialized_ }

/-- Move constructor `optional(optional&& other) noexcept`: the flag is
copied from `other`; if `other` is engaged, `new (data_) T(std::move(*other))`
into fresh storage.  The body contains no write to `other.is_initialized_`
and no destruction in `other`'s buffer, so the source is returned unchanged
(second component). -/
def move_ctor (other : optional T) : Option (optional T × optional T) :=
  if other.is_initialized_ then do
    let v ← deref_mem other.data_
    let m ← placement_new Mem.fresh v
    pure ({ data_ := m, is_initialized_ := other.is_initialized_ }, other)
  else
    pure ({ data_ := Mem.fresh, is_initialized_ := other.is_initialized_ },
      other)

/-- Assignment operators `operator=(const T& value)` and
`operator=(T&& value)` (they coincide for a value-type T): if engaged,
`**this = value` (T's assignment into the live object); if empty,
`new (data_) T(value)` and set the flag. -/
def assign_value (self : optional T) (v : T) : Option (optional T) :=
  if self.is_initialized_ then do
    let m ← assign_into self.data_ v
    pure { self with data_ := m }
  else do
    let m ← placement_new self.data_ v
    pure { data_ := m, is_initialized_ := true }

/-- `void reset()`: if engaged, run the destructor on the live object and
clear the flag; otherwise do nothing. -/
def reset (self : optional T) : Option (optional T) :=
  if self.is_initialized_ then do
    let m ← destroy_at self.data_
    pure { data_ := m, is_initialized_ := false }
  else
    pure self

/-- Copy assignment `operator=(const optional& other)`:
`if (this != &other)` (modelled by `is_self`); if the test fails the body is
skipped.  Otherwise: source engaged and this engaged → `**this = *other`;
source engaged and this empty → `new (data_) T(*other)` and set the flag;
source empty → `reset()`. -/
def copy_assign (self other : optional T) (is_self : Bool) :
    Option (optional T) :=
  if is_self then
    pure self
  else if other.is_initialized_ then
    if self.is_initialized_ then do
      let v ← deref_mem other.data_
      let m ← assign_into self.data_ v
      pure { self with data_ := m }
    else do
      let v ← deref_mem other.data_
      let m ← placement_new self.data_ v
      pure { data_ := m, is_initialized_ := true }
  else
    self.reset

/-- Move assignment `operator=(optional&& other) noexcept`: identical case
structure to copy assignment, with `std::move(*other)` as the right-hand
side; for a value-type T the moved-from object keeps its value and the body
contains no write to `other`, so only the new `this` is returned. -/
def move_assign (self other : optional T) (is_self : Bool) :
    Option (optional T) :=
  if is_self then
    pure self
  else if other.is_initialized_ then
    if self.is_initialized_ then do
      let v ← deref_mem other.data_
      let m ← assign_into self.data_ v
      pure { self with data_ := m }
    else do
      let v ← deref_mem other.data_
      let m ← placement_new self.data_ v
      pure { data_ := m, is_initialized_ := true }
  else
    self.reset

/-- Checked accessors `T& value() &` and `const T& value() const&` (same
body): if not engaged, `throw bad_optional_access()`; otherwise `**this`.
The result pairs the object after the call (the body performs no mutation,
so it is `self` on every path) with the outcome. -/
def value (self : optional T) :
    Option (optional T × Except bad_optional_access T) :=
  if !self.is_initialized_ then
    pure (self, Except.error bad_optional_access.mk)
  else do
    let v ← deref_mem self.data_
    pure (self, Except.ok v)

/-- `template <typename... Args> void emplace(Args&&... args)`:
`reset()`, then `new (data_) T(std::forward<Args>(args)...)`, then set the
flag.  The construction of the T from `args` is T's business and is modelled
by `ctor_result`: `some v` when T's constructor yields `v`, `none` when it
throws.  If it throws, the exception propagates after the `reset()` and
before the flag is set, so the returned state is the reset state; the Bool
reports whether the construction succeeded. -/
def emplace (self : optional T) (ctor_result : Option T) :
    Option (optional T × Bool) := do
  let s ← self.reset
  match ctor_result with
  | none => pure (s, false)
  | some v => do
      let m ← placement_new s.data_ v
      pure ({ data_ := m, is_initialized_ := true }, true)

/-- Destructor `~optional()`: `reset()`. -/
def dtor (self : optional T) : Option (optional T) :=
  self.reset

/-- `bool has_value() const noexcept`: returns the flag. -/
def has_value (self : optional T) : Bool :=
  self.is_initialized_

end optional

/-- Class invariant of the spec's data model: the engaged flag is true iff
exactly one T object is live inside the storage. -/
def Inv {T : Type} (s : optional T) : Prop :=
  s.is_initialized_ = s.data_.live.isSome

instance {T : Type} (s : optional T) : Decidable (Inv s) := by
  unfold Inv; infer_instance

/-- Sample engaged optional over Nat, holding 5 (as produced by
`optional<int> a(5)`), used by the witness theorems. -/
def sampleEngaged : optional Nat :=
  { data_ := { live := some 5, ctorCount := 1, dtorCount := 0,
               assignCount := 0 },
    is_initialized_ := true }

/-- Sample empty optional over Nat, used by the witness theorems. -/
def sampleEmpty : optional Nat :=
  optional.mk_empty

/-- C1: the engaged flag is true iff exactly one T object is live in the
storage; every operation of the class, started from states satisfying this
invariant, performs no lifetime violation (in particular it never constructs
a T into storage that already holds a live one — `placement_new` would
return `none` there, so the `some` results certify it) and every optional it
produces satisfies the invariant again. -/
theorem C1_engaged_iff_single_live_preserved {T : Type} (v : T)
    (s t : optional T) (c : Option T) (b : Bool) (hs : Inv s) (ht : Inv t) :
    Inv (optional.mk_empty : optional T) ∧
    (∃ r, optional.of_value v = some r ∧ Inv r) ∧
    (∃ r, s.copy_ctor = some r ∧ Inv r) ∧
    (∃ r src, s.move_ctor = some (r, src) ∧ Inv r ∧ Inv src) ∧
    (∃ r, s.assign_value v = some r ∧ Inv r) ∧
    (∃ r, s.copy_assign t b = some r ∧ Inv r) ∧
    (∃ r, s.move_assign t b = some r ∧ Inv r) ∧
    (∃ r f, s.emplace c = some (r, f) ∧ Inv r) ∧
    (∃ r, s.reset = some r ∧ Inv r) ∧
    (∃ r out, s.value = some (r, out) ∧ Inv r) ∧
    (∃ r, s.dtor = some r ∧ Inv r) := by
  obtain ⟨⟨ls, cs, ds, as'⟩, is⟩ := s
  obtain ⟨⟨lt, ct, dt, at'⟩, it⟩ := t
  unfold Inv at hs ht ⊢
  cases ls <;> cases is <;> cases lt <;> cases it <;> cases c <;> cases b <;>
    simp_all [optional.mk_empty, optional.of_value, optional.copy_ctor,
      optional.move_ctor, optional.assign_value, optional.reset,
      optional.copy_assign, optional.move_assign, optional.value,
      optional.emplace, optional.dtor, optional.has_value,
      placement_new, destroy_at, deref_mem, assign_into, Mem.fresh,
      Option.bind] <;>
    exact ⟨_, _, ⟨rfl, rfl⟩, rfl, rfl⟩

/-- Witness for C1 at T = Nat: both invariant hypotheses hold at the sample
states, and (instancing the copy-assignment conjunct) the operation succeeds
with the invariant preserved. -/
theorem C1_engaged_iff_single_live_preserved_witness :
    Inv sampleEngaged ∧ Inv sampleEmpty ∧
    ∃ r, sampleEngaged.copy_assign sampleEmpty false = some r ∧ Inv r :=
  ⟨by decide, by decide,
    (C1_engaged_iff_single_live_preserved 5 sampleEngaged sampleEmpty
      (some 7) false (by decide) (by decide)).2.2.2.2.2.1⟩

/-- C2: `value()` yields the bad-optional-access error iff the optional is
not engaged; when engaged it returns the contained value; the error kind is
unique (the type has a single inhabitant, whose message is the one
"Bad optional access" string).  No other operation can raise this error:
their results (see the other theorems) are plain states with no error
component. -/
theorem C2_value_raises_iff_empty {T : Type} (s : optional T) (hs : Inv s) :
    ((∃ e, s.value = some (s, Except.error e)) ↔ s.has_value = false) ∧
    (s.has_value = true →
      ∃ v, s.value = some (s, Except.ok v) ∧ s.data_.live = some v) ∧
    (∀ e e' : bad_optional_access, e = e') ∧
    (∀ e : bad_optional_access, e.what = "Bad optional access") := by
  obtain ⟨⟨ls, cs, ds, as'⟩, is⟩ := s
  unfold Inv at hs
  refine ⟨?_, ?_, fun e e' => by cases e; cases e'; rfl, fun e => rfl⟩
  · cases ls <;> cases is <;>
      simp_all [optional.value, optional.has_value, deref_mem, Option.bind]
    exact ⟨bad_optional_access.mk, trivial⟩
  · cases ls <;> cases is <;>
      simp_all [optional.value, optional.has_value, deref_mem, Option.bind]

/-- Witness for C2 at T = Nat: the invariant holds at the sample empty
optional, where `value()` yields the error precisely because `has_value()`
is false. -/
theorem C2_value_raises_iff_empty_witness :
    Inv sampleEmpty ∧
    ((∃ e, sampleEmpty.value = some (sampleEmpty, Except.error e)) ↔
      sampleEmpty.has_value = false) :=
  ⟨by decide, (C2_value_raises_iff_empty sampleEmpty (by decide)).1⟩

/-- C3: constructing an optional directly from a value v (the copy and move
converting constructors) succeeds, yields `has_value() = true`, and checked
access returns exactly v. -/
theorem C3_construct_from_value {T : Type} (v : T) :
    ∃ r, optional.of_value v = some r ∧ r.has_value = true ∧
      r.value = some (r, Except.ok v) := by
  exact ⟨_, rfl, rfl, rfl⟩

/-- C4: move-constructing from an engaged source succeeds, the destination
is engaged and holds the moved value, and the source comes back literally
unchanged — in particular its engaged flag is not cleared, so the moved-from
optional still reports `has_value() = true`. -/
theorem C4_move_ctor_source_still_engaged {T : Type} (s : optional T)
    (hs : Inv s) (h : s.has_value = true) :
    ∃ v dst, s.data_.live = some v ∧
      s.move_ctor = some (dst, s) ∧
      dst.has_value = true ∧ dst.data_.live = some v ∧
      s.has_value = true := by
  obtain ⟨⟨ls, cs, ds, as'⟩, is⟩ := s
  unfold Inv at hs
  cases ls <;> cases is <;>
    simp_all [optional.move_ctor, optional.has_value, deref_mem,
      placement_new, Mem.fresh, Option.bind]

/-- Witness for C4 at T = Nat: the sample engaged optional satisfies both
hypotheses, and move construction leaves it engaged. -/
theorem C4_move_ctor_source_still_engaged_witness :
    ∃ v dst, sampleEngaged.data_.live = some v ∧
      sampleEngaged.move_ctor = some (dst, sampleEngaged) ∧
      dst.has_value = true ∧ dst.data_.live = some v ∧
      sampleEngaged.has_value = true :=
  C4_move_ctor_source_still_engaged sampleEngaged (by decide) (by decide)

/-- C5: `emplace` first runs `reset()` (so an engaged optional's old value
is destroyed — the storage's destructor counter increases by one — before
anything else), then constructs the new T; on success the optional is
engaged with the new value and the construction counter increased by one.
If T's constructor throws (`ctor_result = none`), the optional is left
empty, because the storage was reset before the construction attempt. -/
theorem C5_emplace_resets_then_constructs {T : Type} (s : optional T)
    (v : T) (hs : Inv s) :
    (∃ r, s.emplace (some v) = some (r, true) ∧
       r.has_value = true ∧ r.data_.live = some v ∧
       r.data_.ctorCount = s.data_.ctorCount + 1 ∧
       (s.has_value = true → r.data_.dtorCount = s.data_.dtorCount + 1) ∧
       (s.has_value = false → r.data_.dtorCount = s.data_.dtorCount)) ∧
    (∃ r, s.emplace none = some (r, false) ∧ r.has_value = false ∧
       r.data_.live = none) := by
  obtain ⟨⟨ls, cs, ds, as'⟩, is⟩ := s
  unfold Inv at hs
  cases ls <;> cases is <;>
    simp_all [optional.emplace, optional.reset, optional.has_value,
      destroy_at, placement_new, Option.bind]

/-- Witness for C5 at T = Nat: the invariant holds at the sample engaged
optional, where a throwing construction leaves the optional empty. -/
theorem C5_emplace_resets_then_constructs_witness :
    Inv sampleEngaged ∧
    ∃ r, sampleEngaged.emplace none = some (r, false) ∧
      r.has_value = false ∧ r.data_.live = none :=
  ⟨by decide,
    (C5_emplace_resets_then_constructs sampleEngaged 7 (by decide)).2⟩

/-- C6: assigning a plain T value into an engaged optional goes through T's
assignment operator on the existing live object (the assignment counter
increases; construction and destruction counters are untouched, so there is
no destroy-and-reconstruct) and `has_value()` stays true with the new value;
assigning into an empty optional placement-constructs a new T (construction
counter increases) and the optional becomes engaged. -/
theorem C6_assign_value_reuses_or_constructs {T : Type} (s : optional T)
    (v : T) (hs : Inv s) :
    (s.has_value = true →
      ∃ r, s.assign_value v = some r ∧ r.has_value = true ∧
        r.data_.live = some v ∧
        r.data_.assignCount = s.data_.assignCount + 1 ∧
        r.data_.ctorCount = s.data_.ctorCount ∧
        r.data_.dtorCount = s.data_.dtorCount) ∧
    (s.has_value = false →
      ∃ r, s.assign_value v = some r ∧ r.has_value = true ∧
        r.data_.live = some v ∧
        r.data_.ctorCount = s.data_.ctorCount + 1 ∧
        r.data_.assignCount = s.data_.assignCount) := by
  obtain ⟨⟨ls, cs, ds, as'⟩, is⟩ := s
  unfold Inv at hs
  cases ls <;> cases is <;>
    simp_all [optional.assign_value, optional.has_value, assign_into,
      placement_new, Option.bind]

/-- Witness for C6 at T = Nat: assigning 9 into the sample engaged optional
reuses the live object via T-assignment. -/
theorem C6_assign_value_reuses_or_constructs_witness :
    Inv sampleEngaged ∧
    ∃ r, sampleEngaged.assign_value 9 = some r ∧ r.has_value = true ∧
      r.data_.live = some 9 ∧
      r.data_.assignCount = sampleEngaged.data_.assignCount + 1 ∧
      r.data_.ctorCount = sampleEngaged.data_.ctorCount ∧
      r.data_.dtorCount = sampleEngaged.data_.dtorCount :=
  ⟨by decide,
    (C6_assign_value_reuses_or_constructs sampleEngaged 9 (by decide)).1
      (by decide)⟩

/-- C7: optional-to-optional assignment (copy and move forms) by cases:
self-assignment is a no-op leaving state and value unchanged; an empty
source resets the destination to empty; engaged source into engaged
destination assigns the contained values (T-assignment, counters show no
construction or destruction); engaged source into empty destination
placement-constructs a new value and engages the destination. -/
theorem C7_optional_assign_cases {T : Type} (a b : optional T)
    (ha : Inv a) (hb : Inv b) :
    (a.copy_assign a true = some a) ∧
    (a.move_assign a true = some a) ∧
    (b.has_value = false →
      ∃ r, a.copy_assign b false = some r ∧ a.move_assign b false = some r ∧
        r.has_value = false) ∧
    (a.has_value = true → b.has_value = true →
      ∃ v r, b.data_.live = some v ∧ a.copy_assign b false = some r ∧
        a.move_assign b false = some r ∧
        r.has_value = true ∧ r.data_.live = some v ∧
        r.data_.assignCount = a.data_.assignCount + 1 ∧
        r.data_.ctorCount = a.data_.ctorCount ∧
        r.data_.dtorCount = a.data_.dtorCount) ∧
    (a.has_value = false → b.has_value = true →
      ∃ v r, b.data_.live = some v ∧ a.copy_assign b false = some r ∧
        a.move_assign b false = some r ∧
        r.has_value = true ∧ r.data_.live = some v ∧
        r.data_.ctorCount = a.data_.ctorCount + 1) := by
  obtain ⟨⟨la, ca, da, aa⟩, ia⟩ := a
  obtain ⟨⟨lb, cb, db, ab⟩, ib⟩ := b
  unfold Inv at ha hb
  cases la <;> cases ia <;> cases lb <;> cases ib <;>
    simp_all [optional.copy_assign, optional.move_assign, optional.reset,
      optional.has_value, deref_mem, assign_into, placement_new, destroy_at,
      Option.bind]

/-- Witness for C7 at T = Nat: both invariant hypotheses hold, and
self-assignment of the sample engaged optional is a no-op. -/
theorem C7_optional_assign_cases_witness :
    Inv sampleEngaged ∧ Inv sampleEmpty ∧
    sampleEngaged.copy_assign sampleEngaged true = some sampleEngaged :=
  ⟨by decide, by decide,
    (C7_optional_assign_cases sampleEngaged sampleEmpty (by decide)
      (by decide)).1⟩

/-- C8: copy-constructing from an engaged optional yields an engaged copy
with an equal value in its own storage; mutating the copy's contained value
afterwards (via value assignment) changes only the copy, while the source —
which the copy constructor returned untouched — still holds its original
value and stays engaged.  Copy-constructing from an empty optional yields
an empty optional. -/
theorem C8_copy_ctor_independent_copy {T : Type} (a : optional T)
    (ha : Inv a) :
    (a.has_value = true →
      ∃ v b, a.data_.live = some v ∧ a.copy_ctor = some b ∧
        b.has_value = true ∧ b.data_.live = some v ∧
        ∀ w, ∃ b2, b.assign_value w = some b2 ∧ b2.data_.live = some w ∧
          b2.has_value = true ∧
          a.data_.live = some v ∧ a.has_value = true) ∧
    (a.has_value = false → a.copy_ctor = some optional.mk_empty) := by
  obtain ⟨⟨la, ca, da, aa⟩, ia⟩ := a
  unfold Inv at ha
  cases la <;> cases ia <;>
    simp_all [optional.copy_ctor, optional.assign_value, optional.mk_empty,
      optional.has_value, deref_mem, assign_into, placement_new, Mem.fresh,
      Option.bind]

/-- Witness for C8 at T = Nat: the invariant holds at the sample empty
optional and copy construction from it yields the empty optional. -/
theorem C8_copy_ctor_independent_copy_witness :
    Inv sampleEmpty ∧ sampleEmpty.copy_ctor = some optional.mk_empty :=
  ⟨by decide,
    (C8_copy_ctor_independent_copy sampleEmpty (by decide)).2 (by decide)⟩

/-- C9: `reset()` always succeeds and leaves the optional empty; on an
already-empty optional it is a no-op returning the very same state; and it
is idempotent — resetting the result of a reset changes nothing. -/
theorem C9_reset_idempotent {T : Type} (s : optional T) (hs : Inv s) :
    (∃ r, s.reset = some r ∧ r.has_value = false) ∧
    (s.has_value = false → s.reset = some s) ∧
    (∃ r, s.reset = some r ∧ r.reset = some r) := by
  obtain ⟨⟨ls, cs, ds, as'⟩, is⟩ := s
  unfold Inv at hs
  cases ls <;> cases is <;>
    simp_all [optional.reset, optional.has_value, destroy_at, Option.bind]

/-- Witness for C9 at T = Nat: the invariant holds at the sample empty
optional, where `reset()` is a no-op. -/
theorem C9_reset_idempotent_witness :
    Inv sampleEmpty ∧ sampleEmpty.reset = some sampleEmpty :=
  ⟨by decide, (C9_reset_idempotent sampleEmpty (by decide)).2.1 (by decide)⟩

/-- C10: calling `value()` on an empty optional raises the bad-access error
and returns the optional in literally the same state (`s` itself): it is
still empty, and no T was constructed or destroyed (all storage counters are
those of `s`). -/
theorem C10_value_on_empty_state_unchanged {T : Type} (s : optional T)
    (h : s.has_value = false) :
    s.value = some (s, Except.error bad_optional_access.mk) := by
  unfold optional.value
  rw [show s.is_initialized_ = false from h]
  rfl

/-- Witness for C10 at T = Nat: the sample empty optional is empty, and
`value()` on it yields the error with the state unchanged. -/
theorem C10_value_on_empty_state_unchanged_witness :
    sampleEmpty.has_value = false ∧
    sampleEmpty.value = some (sampleEmpty, Except.error
      bad_optional_access.mk) :=
  ⟨by decide, C10_value_on_empty_state_unchanged sampleEmpty (by decide)⟩

end bmstu
